import Mathlib

/-!
Shallow embedding of src/main.cpp (worker supervisor with a filesystem-watcher
worker, a periodic test worker, a shared stop token and per-worker
condition-variable gates), together with theorems settling the frozen claims.

External collaborators (libc getopt_long, std::condition_variable, the fswatch
library, std::ofstream) are modelled from their documented contracts; everything
else is translated directly from the source.
-/

namespace TestBbx15

/-- The two condition-variable Events of the program:
`task_event_stop_fswatcher` and `task_event_stop_test` (main.cpp:57-58). -/
inductive Gate : Type
| fswatcher
| test
deriving DecidableEq, Repr

/-- `WakeUpRunningTasks` (main.cpp:173-182): the list of gates whose condition
variable receives a `notify_all`, in program order.  The fswatcher gate is
notified only when `all_tasks_wakeup` is true; the test gate is always
notified. -/
def WakeUpRunningTasks (all_tasks_wakeup : Bool) : List Gate :=
  (if all_tasks_wakeup then [Gate.fswatcher] else []) ++ [Gate.test]

/-- Change kinds of the fswatch library relevant here. -/
inductive FsEvent : Type
| file_created
| file_opened
| file_modified
| file_closed
| file_deleted
deriving DecidableEq, Repr

/-- The event set passed to `watcher.on` (main.cpp:197):
`{fswatch::Event::FILE_CLOSED, fswatch::Event::FILE_DELETED}`. -/
def subscribedEvents : List FsEvent := [FsEvent.file_closed, FsEvent.file_deleted]

/-- The change callback registered by the watcher worker (main.cpp:198-200):
it calls `WakeUpRunningTasks(true)` and ignores the event payload. -/
def onChangeCallback : List Gate := WakeUpRunningTasks true

/-- fswatch dispatch (external library contract): the callback registered via
`watcher.on(events, cb)` is invoked exactly for events in the subscribed set.
Result: the gates notified in response to one detected change of kind `k`. -/
def watcherDispatch (k : FsEvent) : List Gate :=
  if k ∈ subscribedEvents then onChangeCallback else []

/-- Times, in milliseconds after a wait call begins, at which `notify_all`
calls arrive while the caller is parked, in ascending order.  Notifications
issued before the wait began are absent from the schedule: a condition
variable has no memory, so a notify with no thread parked is lost. -/
abbrev NotifySchedule := List Nat

/-- `cv.wait(lck, pred)` (std::condition_variable contract) for a predicate
whose value is given by `stop_at t` at time `t` after entry, assumed monotone
(the stop token never untrips).  The predicate is evaluated under the lock
before first sleeping: if it already holds the call returns at once; otherwise
the caller re-evaluates it at each arriving notification and returns at the
first one where it holds.  Result: time parked, `none` if the wait never
returns. -/
def waitPredicated (stop_at : Nat → Bool) (notifies : NotifySchedule) : Option Nat :=
  if stop_at 0 then some 0 else notifies.find? (fun t => stop_at t)

/-- `cv.wait_for(lck, dur)` with no predicate (std::condition_variable
contract, main.cpp:271): the caller parks unconditionally and returns at the
first arriving notification or when the timeout elapses, whichever is first.
A spurious wakeup behaves like a notification arrival here. -/
def waitForUnpredicated (timeout : Nat) (notifies : NotifySchedule) : Nat :=
  match notifies with
  | [] => timeout
  | t :: _ => min t timeout

/-- The watcher stop sub-task's wait (main.cpp:213-216):
`task_event_stop_fswatcher.event_condition.wait(lck, [&]{ return token.stop_requested(); })`. -/
def stopWatcherWait (stop_at : Nat → Bool) (notifies : NotifySchedule) : Option Nat :=
  waitPredicated stop_at notifies

/-- `waitDurationDef = 3000ms` (main.cpp:256). -/
def waitDurationTestMs : Nat := 3000

/-- One blocking wait of `TaskWorker_Test` (main.cpp:270-271):
`event_condition.wait_for(lck, 3000ms)` with no predicate.  Result: time
parked before the worker gets to re-check the stop token. -/
def testWorkerWait (notifies : NotifySchedule) : Nat :=
  waitForUnpredicated waitDurationTestMs notifies

/-- Why a `wait_for` call returned; `TaskWorker_Test` discards this value
(main.cpp:271 ignores the return of `wait_for`). -/
inductive WakeReason : Type
| timeout
| notified
| spurious
deriving DecidableEq, Repr

/-- The decision made by one iteration of the `TaskWorker_Test` loop after its
wait returns (main.cpp:273-277): it breaks iff `token.stop_requested()`,
regardless of why the wait returned. -/
def testWorkerIterExits (stop_requested : Bool) (_wake : WakeReason) : Bool :=
  stop_requested

/-- The `TaskWorker_Test` main loop (main.cpp:267-278) run against a schedule:
`stop_trace i` is the value of `token.stop_requested()` observed after the
i-th wait (0-based).  Result: the number of completed iterations when the loop
breaks, `none` if `fuel` iterations all observed the token untripped. -/
def testWorkerLoop (stop_trace : Nat → Bool) (fuel : Nat) : Option Nat :=
  match fuel with
  | 0 => none
  | Nat.succ f =>
    if stop_trace 0 then some 1
    else
      match testWorkerLoop (fun i => stop_trace (i + 1)) f with
      | some n => some (n + 1)
      | none => none

/-- One supervisor shutdown action in `main` (main.cpp:321-324). -/
inductive SupAct : Type
| requestStop
| notify (g : Gate)
deriving DecidableEq, Repr

/-- The shutdown step of `main` (main.cpp:319-324) as an action sequence:
`stop_src.request_stop()` followed by `WakeUpRunningTasks(true)`. -/
def requestShutdownActions : List SupAct :=
  SupAct.requestStop :: (WakeUpRunningTasks true).map SupAct.notify

/-- Supervisor-visible state: the stop source's flag and the accumulated
notifications sent so far. -/
structure SupervisorState : Type where
  stop_requested : Bool
  notifies_sent : List Gate
deriving DecidableEq, Repr

/-- Effect of performing the shutdown step once: `request_stop` trips the stop
source (monotone; `std::stop_source` never untrips), then every gate in
`WakeUpRunningTasks true` is notified. -/
def requestShutdown (s : SupervisorState) : SupervisorState :=
  { stop_requested := true
    notifies_sent := s.notifies_sent ++ WakeUpRunningTasks true }

/-- The watched directory passed to the fswatch constructor (main.cpp:194). -/
def watchedPath : String := "/tmp"

/-- The sentinel file path (main.cpp:227). -/
def sentinelPath : String := "/tmp/~watcher_wakeup"

/-- The contents written to the sentinel file (main.cpp:228). -/
def sentinelContent : String := "Wakeup\n"

/-- One action of the `stop_watching_task` sub-task (main.cpp:209-231). -/
inductive SubAct : Type
| waitForStop
| printStopRequested
| callWatcherStop
| openTrunc (path : String)
| writeFile (content : String)
| closeFile
| printSubtaskStopped
deriving DecidableEq, Repr

/-- The `stop_watching_task` body (main.cpp:209-231) as its action sequence.
The loop's wait predicate is `token.stop_requested()`, so when the wait
returns the subsequent stop check succeeds and the loop body runs exactly
once before breaking; then `watcher.stop()`, then the sentinel file is opened
with `std::ios_base::trunc`, written and closed, then the terminal print. -/
def stop_watching_task : List SubAct :=
  [SubAct.waitForStop, SubAct.printStopRequested, SubAct.callWatcherStop,
   SubAct.openTrunc sentinelPath, SubAct.writeFile sentinelContent,
   SubAct.closeFile, SubAct.printSubtaskStopped]

/-- Exceptions the adapter's `start()` can raise, mirroring the three catch
clauses at main.cpp:235-241. -/
inductive Exn : Type
| fsError (msg : String)
| stdError (msg : String)
| other
deriving DecidableEq, Repr

/-- The message logged by the catch clause handling each exception
(main.cpp:235-241): `filesystem_error`, then `std::exception`, then the
catch-all. -/
def catchMsg : Exn → String
| Exn.fsError m => "Filesystem exception was caught: " ++ m
| Exn.stdError m => "Exception was caught: " ++ m
| Exn.other => "Unknown exception was caught"

/-- Which catch clause, if any, handles a raised exception; `none` would mean
the exception escapes the try block.  The catch-all at main.cpp:239 makes
this total. -/
def catchClause : Exn → Option String
| Exn.fsError m => some (catchMsg (Exn.fsError m))
| Exn.stdError m => some (catchMsg (Exn.stdError m))
| Exn.other => some (catchMsg Exn.other)

/-- One action of the watcher worker's main thread (main.cpp:233-245). -/
inductive WAct : Type
| callStart
| printLog (msg : String)
| joinSubtask
| printWatcherStopped
deriving DecidableEq, Repr

/-- `TaskWorkerFsWatcher` after sub-task creation (main.cpp:233-245), as a
function of the outcome of the blocking `watcher.start()` call:
`try { watcher.start(); } catch (...) { log }` then
`stop_watching_task.join()` then the terminal print.  Result:
`Except.error e` if an exception escapes the worker, otherwise the worker's
action trace. -/
def taskWorkerFsWatcher (startOutcome : Except Exn Unit) : Except Exn (List WAct) :=
  match startOutcome with
  | Except.ok _ =>
    Except.ok ([WAct.callStart] ++ [WAct.joinSubtask, WAct.printWatcherStopped])
  | Except.error e =>
    match catchClause e with
    | some msg =>
      Except.ok ([WAct.callStart, WAct.printLog msg] ++
                 [WAct.joinSubtask, WAct.printWatcherStopped])
    | none => Except.error e

/-- A filesystem snapshot: each path maps to its contents when the file
exists. -/
abbrev FileSystem := String → Option String

/-- Filesystem plus the state of the sub-task's `std::ofstream`. -/
structure OfstreamState : Type where
  files : FileSystem
  openPath : Option String

/-- Effect of one sub-task action on the filesystem (std::ofstream contract):
`open(p, std::ios_base::trunc)` creates `p` empty, `<< c` appends to the open
file, `close` releases it; the other actions touch no file. -/
def applySubAct (s : OfstreamState) : SubAct → OfstreamState
| SubAct.openTrunc p =>
  { files := fun q => if q = p then some "" else s.files q, openPath := some p }
| SubAct.writeFile c =>
  match s.openPath with
  | some p =>
    { s with files := fun q => if q = p then some (((s.files p).getD "") ++ c) else s.files q }
  | none => s
| SubAct.closeFile => { s with openPath := none }
| _ => s

/-- The filesystem effect of one full run of the shutdown escalation, i.e. of
the `stop_watching_task` action sequence (main.cpp:225-229 for the file
actions). -/
def runEscalation (fs : FileSystem) : FileSystem :=
  (stop_watching_task.foldl applySubAct { files := fs, openPath := none }).files

/-- A return value of `getopt_long` over the option table at
main.cpp:106-111. -/
inductive GetoptRet : Type
| longHelp
| ch (c : Char)
deriving DecidableEq, Repr

/-- Classification of one option argument by `getopt_long` (libc contract,
with the table at main.cpp:106-111): the long option `help` has `val` 0, the
long option `version` has `val` v; short options are `h`, `?`, `v`; any
unrecognized option yields the character `?`. -/
def getoptClassify (arg : String) : GetoptRet :=
  if arg = "--help" then GetoptRet.longHelp
  else if arg = "--version" then GetoptRet.ch 'v'
  else if arg = "-h" then GetoptRet.ch 'h'
  else if arg = "-?" then GetoptRet.ch '?'
  else if arg = "-v" then GetoptRet.ch 'v'
  else GetoptRet.ch '?'

/-- Console outputs of the option handling and console-input code. -/
inductive ConsoleOut : Type
| helpText
| versionText
| quitText
| keyOptionsText
deriving DecidableEq, Repr

/-- Outcome of `ProcessOptions`: either the process exits with a code, or the
function returns to `main` and the workers get started. -/
inductive ProcOutcome : Type
| exited (code : Int) (outputs : List ConsoleOut)
| returned (outputs : List ConsoleOut)
deriving DecidableEq, Repr

/-- `ProcessOptions` (main.cpp:103-137) over the stream of `getopt_long`
returns: case 0 (`--help`) prints the help and continues the loop; cases `?`
and `h` share one block that prints the help and exits `EXIT_SUCCESS` (0);
case `v` shows the version and exits 0; the default case prints the help and
exits -1. -/
def processOptions : List GetoptRet → ProcOutcome
| [] => ProcOutcome.returned []
| GetoptRet.longHelp :: rest =>
  match processOptions rest with
  | ProcOutcome.exited c outs => ProcOutcome.exited c (ConsoleOut.helpText :: outs)
  | ProcOutcome.returned outs => ProcOutcome.returned (ConsoleOut.helpText :: outs)
| GetoptRet.ch c :: _ =>
  if c = '?' ∨ c = 'h' then ProcOutcome.exited 0 [ConsoleOut.helpText]
  else if c = 'v' then ProcOutcome.exited 0 [ConsoleOut.versionText]
  else ProcOutcome.exited (-1) [ConsoleOut.helpText]

/-- Exit code of the process after `ProcessOptions` on the given option
arguments (argv without the program name), `none` when `ProcessOptions`
returns and `main` goes on to start the workers (main.cpp:299-310). -/
def mainExitCode (args : List String) : Option Int :=
  match processOptions (args.map getoptClassify) with
  | ProcOutcome.exited c _ => some c
  | ProcOutcome.returned _ => none

/-- Whether `main` reaches worker creation (main.cpp:308-310): exactly when
`ProcessOptions` did not exit the process. -/
def mainStartsWorkers (args : List String) : Bool :=
  match processOptions (args.map getoptClassify) with
  | ProcOutcome.exited _ _ => false
  | ProcOutcome.returned _ => true

/-- `HandleGetChar` (main.cpp:145-162) on the character read: returns whether
a quit command was received, together with what it prints.  Newline falls
into its own silent case; `q` prints the quit message and returns true; every
other character prints the key-options reminder and returns false. -/
def handleGetChar (c : Char) : Bool × List ConsoleOut :=
  if c = '\n' then (false, [])
  else if c = 'q' then (true, [ConsoleOut.quitText])
  else (false, [ConsoleOut.keyOptionsText])

/-- The `main` console loop (main.cpp:313-317): reads characters until
`HandleGetChar` returns true.  Result: the index of the character that ended
the loop, `none` if the stream is exhausted without one. -/
def mainConsoleLoop : List Char → Option Nat
| [] => none
| c :: rest =>
  if (handleGetChar c).1 then some 0
  else (mainConsoleLoop rest).map Nat.succ

/-- C1: counterexample.  With the stop token already tripped and the
`notify_all` issued while no thread was parked (so the notification is lost),
the watcher stop sub-task's predicated wait does return immediately, but
`TaskWorker_Test`'s `wait_for` carries no predicate, so it parks for the
full 3000 ms timeout instead of returning immediately, refuting the claim
that both waits observe an already-requested stop without blocking for a
full timeout. -/
theorem testWorkerWait_lost_notify_full_timeout :
    stopWatcherWait (fun _ => true) [] = some 0 ∧
    testWorkerWait [] = waitDurationTestMs ∧
    waitDurationTestMs ≠ 0 := by
  refine ⟨rfl, rfl, by decide⟩

/-- C1 (amended): entered after the stop token is already tripped, the watcher
stop sub-task's wait re-evaluates its predicate under the lock before
sleeping and returns immediately; the test worker's unpredicated timed wait
parks until its first notification or its timeout, hence at most one full
3000 ms timeout, and only then does the loop observe the stop. -/
theorem waits_after_stop_tripped (stop_at : Nat → Bool) (notifies : NotifySchedule)
    (h : stop_at 0 = true) :
    stopWatcherWait stop_at notifies = some 0 ∧
    testWorkerWait notifies ≤ waitDurationTestMs := by
  constructor
  · simp [stopWatcherWait, waitPredicated, h]
  · cases notifies with
    | nil => simp [testWorkerWait, waitForUnpredicated]
    | cons t rest =>
      simp only [testWorkerWait, waitForUnpredicated]
      exact Nat.min_le_right t waitDurationTestMs

/-- C1 (amended), witness at a concrete schedule. -/
theorem waits_after_stop_tripped_witness :
    stopWatcherWait (fun _ => true) [5] = some 0 ∧
    testWorkerWait [5] ≤ waitDurationTestMs :=
  waits_after_stop_tripped (fun _ => true) [5] rfl

/-- C2: in the `stop_watching_task` sequence, `watcher.stop()` is called
exactly once, the sentinel file is opened (with truncation) exactly once, the
stop call comes strictly before the sentinel open, and the sentinel path lies
inside the watched path. -/
theorem stop_before_sentinel :
    stop_watching_task.count SubAct.callWatcherStop = 1 ∧
    stop_watching_task.count (SubAct.openTrunc sentinelPath) = 1 ∧
    List.indexOf SubAct.callWatcherStop stop_watching_task <
      List.indexOf (SubAct.openTrunc sentinelPath) stop_watching_task ∧
    sentinelPath = watchedPath ++ "/~watcher_wakeup" := by
  refine ⟨by decide, by decide, by decide, by decide⟩

/-- C4: every exception raised by `watcher.start()` — filesystem_error,
std::exception, or anything else — is caught by one of the worker's catch
clauses, logged with its message, does not escape the worker, `start` is not
retried, and the worker then performs exactly the same join-and-report tail
as a clean run. -/
theorem start_exceptions_caught_terminal (e : Exn) :
    catchClause e = some (catchMsg e) ∧
    taskWorkerFsWatcher (Except.error e) =
      Except.ok [WAct.callStart, WAct.printLog (catchMsg e),
                 WAct.joinSubtask, WAct.printWatcherStopped] ∧
    taskWorkerFsWatcher (Except.ok ()) =
      Except.ok [WAct.callStart, WAct.joinSubtask, WAct.printWatcherStopped] := by
  cases e <;> exact ⟨rfl, rfl, rfl⟩

/-- C6: every subscribed change event is dispatched to the wakeup broadcast;
the registered callback calls `WakeUpRunningTasks true`; with the flag true
both the fswatcher gate and the test gate are notified, with the flag false
only the test gate is. -/
theorem change_event_wake_scope (k : FsEvent) (h : k ∈ subscribedEvents) :
    watcherDispatch k = [Gate.fswatcher, Gate.test] ∧
    onChangeCallback = WakeUpRunningTasks true ∧
    WakeUpRunningTasks true = [Gate.fswatcher, Gate.test] ∧
    WakeUpRunningTasks false = [Gate.test] := by
  refine ⟨?_, rfl, rfl, rfl⟩
  simp [watcherDispatch, h]
  rfl

/-- C6, witness at the FILE_CLOSED event. -/
theorem change_event_wake_scope_witness :
    watcherDispatch FsEvent.file_closed = [Gate.fswatcher, Gate.test] ∧
    onChangeCallback = WakeUpRunningTasks true ∧
    WakeUpRunningTasks true = [Gate.fswatcher, Gate.test] ∧
    WakeUpRunningTasks false = [Gate.test] :=
  change_event_wake_scope FsEvent.file_closed (by decide)

/-- C8: evaluation of the option handling.  `-h`, `-v` and `--version` exit
with code 0 before any worker starts, as claimed; but an unrecognized option
(here `-x`) is classified `?` by getopt_long and falls into the same block as
`-h`, exiting with code 0 rather than non-zero; and `--help` (long option
with val 0) only prints the help without exiting, so the process goes on to
start the workers. -/
theorem option_handling_exit_codes :
    mainExitCode ["-h"] = some 0 ∧
    mainExitCode ["-v"] = some 0 ∧
    mainExitCode ["--version"] = some 0 ∧
    mainStartsWorkers ["-h"] = false ∧
    mainExitCode ["-x"] = some 0 ∧
    mainExitCode ["--help"] = none ∧
    mainStartsWorkers ["--help"] = true := by
  refine ⟨by decide, by decide, by decide, by decide, by decide, by decide, by decide⟩

/-- C9: counterexample.  A newline read from standard input is not `q`, yet
`HandleGetChar` prints nothing — in particular no key-options reminder — and
returns false, refuting the claim that every character other than `q` prints
a help reminder. -/
theorem newline_no_help_reminder :
    (handleGetChar (Char.ofNat 10)).1 = false ∧
    (handleGetChar (Char.ofNat 10)).2 = [] ∧
    ConsoleOut.keyOptionsText ∉ (handleGetChar (Char.ofNat 10)).2 := by
  refine ⟨rfl, rfl, by decide⟩

/-- C9 (amended): `HandleGetChar` returns true exactly on `q` (on which it
prints the quit message); it prints the key-options reminder exactly for
characters that are neither `q` nor newline; newline is silently ignored;
and the main console loop breaks exactly at a character on which
`HandleGetChar` returns true. -/
theorem handleGetChar_exact (c : Char) :
    ((handleGetChar c).1 = true ↔ c = 'q') ∧
    (ConsoleOut.quitText ∈ (handleGetChar c).2 ↔ c = 'q') ∧
    (ConsoleOut.keyOptionsText ∈ (handleGetChar c).2 ↔
      (c ≠ 'q' ∧ c ≠ Char.ofNat 10)) ∧
    (∀ cs, mainConsoleLoop (c :: cs) =
      if c = 'q' then some 0 else (mainConsoleLoop cs).map Nat.succ) := by
  by_cases hn : c = Char.ofNat 10
  · subst hn
    refine ⟨by decide, by decide, by decide, ?_⟩
    intro cs
    simp [mainConsoleLoop, handleGetChar]
  · by_cases hq : c = 'q'
    · subst hq
      refine ⟨by decide, by decide, by decide, ?_⟩
      intro cs
      simp [mainConsoleLoop, handleGetChar]
    · have h1 : (handleGetChar c) = (false, [ConsoleOut.keyOptionsText]) := by
        simp [handleGetChar, hn, hq]
      refine ⟨?_, ?_, ?_, ?_⟩
      · simp [h1, hq]
      · simp [h1, hq]
      · simp [h1, hq, hn]
      · intro cs
        simp [mainConsoleLoop, h1, hq]

lemma requestShutdown_iterate_stop (s : SupervisorState) (n : Nat) (h : 1 ≤ n) :
    (requestShutdown^[n] s).stop_requested = true := by
  obtain ⟨m, rfl⟩ := Nat.exists_eq_add_of_le h
  rw [Nat.add_comm, Function.iterate_succ_apply']
  rfl

/-- C3: the shutdown step of `main` trips the stop source strictly before any
gate is notified, notifies every gate; performed any positive number of times
it leaves the stop flag tripped; and with the stop flag tripped both workers'
blocking points release — the test worker's loop exits on its next check and
the watcher stop sub-task's wait returns at once (so the subsequent joins
return). -/
theorem requestShutdown_stops_and_unblocks (s : SupervisorState) (n : Nat)
    (h : 1 ≤ n) :
    (requestShutdown^[n] s).stop_requested = true ∧
    SupAct.notify Gate.fswatcher ∈ requestShutdownActions ∧
    SupAct.notify Gate.test ∈ requestShutdownActions ∧
    List.indexOf SupAct.requestStop requestShutdownActions <
      List.indexOf (SupAct.notify Gate.fswatcher) requestShutdownActions ∧
    List.indexOf SupAct.requestStop requestShutdownActions <
      List.indexOf (SupAct.notify Gate.test) requestShutdownActions ∧
    testWorkerLoop (fun _ => true) 1 = some 1 ∧
    stopWatcherWait (fun _ => true) [] = some 0 :=
  ⟨requestShutdown_iterate_stop s n h, by decide, by decide, by decide, by decide,
   rfl, rfl⟩

/-- C3, witness: two shutdown steps from the initial supervisor state. -/
theorem requestShutdown_stops_and_unblocks_witness :
    (requestShutdown^[2] { stop_requested := false, notifies_sent := [] }).stop_requested
      = true ∧
    SupAct.notify Gate.fswatcher ∈ requestShutdownActions ∧
    SupAct.notify Gate.test ∈ requestShutdownActions ∧
    List.indexOf SupAct.requestStop requestShutdownActions <
      List.indexOf (SupAct.notify Gate.fswatcher) requestShutdownActions ∧
    List.indexOf SupAct.requestStop requestShutdownActions <
      List.indexOf (SupAct.notify Gate.test) requestShutdownActions ∧
    testWorkerLoop (fun _ => true) 1 = some 1 ∧
    stopWatcherWait (fun _ => true) [] = some 0 :=
  requestShutdown_stops_and_unblocks { stop_requested := false, notifies_sent := [] } 2
    (by decide)

/-- C5: in every completed run of the watcher worker, the `start` call comes
first, the join of the stop sub-task comes strictly after it, and the
terminal report print is the last action, strictly after the join. -/
theorem join_before_terminal_print (o : Except Exn Unit) (acts : List WAct)
    (h : taskWorkerFsWatcher o = Except.ok acts) :
    ∃ i j k, i < j ∧ j < k ∧
      acts[i]? = some WAct.callStart ∧
      acts[j]? = some WAct.joinSubtask ∧
      acts[k]? = some WAct.printWatcherStopped ∧
      acts.length = k + 1 := by
  cases o with
  | ok u =>
    cases u
    injection h with h
    subst h
    exact ⟨0, 1, 2, by decide, by decide, rfl, rfl, rfl, rfl⟩
  | error e =>
    cases e <;>
      (injection h with h; subst h;
       exact ⟨0, 2, 3, by decide, by decide, rfl, rfl, rfl, rfl⟩)

/-- C5, witness: the clean run. -/
theorem join_before_terminal_print_witness :
    ∃ i j k, i < j ∧ j < k ∧
      ([WAct.callStart, WAct.joinSubtask, WAct.printWatcherStopped])[i]?
        = some WAct.callStart ∧
      ([WAct.callStart, WAct.joinSubtask, WAct.printWatcherStopped])[j]?
        = some WAct.joinSubtask ∧
      ([WAct.callStart, WAct.joinSubtask, WAct.printWatcherStopped])[k]?
        = some WAct.printWatcherStopped ∧
      ([WAct.callStart, WAct.joinSubtask, WAct.printWatcherStopped] : List WAct).length
        = k + 1 :=
  join_before_terminal_print (Except.ok ())
    [WAct.callStart, WAct.joinSubtask, WAct.printWatcherStopped] rfl

lemma testWorkerLoop_spec (fuel : Nat) :
    ∀ (stop_trace : Nat → Bool) (n : Nat),
      testWorkerLoop stop_trace fuel = some n →
      1 ≤ n ∧ stop_trace (n - 1) = true ∧ ∀ i, i < n - 1 → stop_trace i = false := by
  induction fuel with
  | zero =>
    intro st n h
    simp [testWorkerLoop] at h
  | succ f ih =>
    intro st n h
    by_cases h0 : st 0 = true
    · simp [testWorkerLoop, h0] at h
      subst h
      exact ⟨Nat.le_refl 1, h0, by intro i hi; omega⟩
    · rw [testWorkerLoop] at h
      rw [if_neg h0] at h
      cases hrec : testWorkerLoop (fun i => st (i + 1)) f with
      | none => rw [hrec] at h; exact absurd h (by simp)
      | some m =>
        rw [hrec] at h
        simp at h
        subst h
        obtain ⟨hm1, hmt, hmf⟩ := ih _ _ hrec
        refine ⟨by omega, ?_, ?_⟩
        · have : m + 1 - 1 = (m - 1) + 1 := by omega
          rw [this]
          exact hmt
        · intro i hi
          cases i with
          | zero => exact Bool.not_eq_true (st 0) ▸ (by simpa using h0)
          | succ j => exact hmf j (by omega)

/-- C7: whenever the `TaskWorker_Test` loop terminates, it does so at the
first wait after which the stop token was observed tripped: the stop flag is
true at the exiting check, false at every earlier check; and the per-wake
decision ignores the wake reason — for every wake reason the loop exits
exactly when the stop flag is true. -/
theorem testWorker_exits_only_on_stop (stop_trace : Nat → Bool) (fuel n : Nat)
    (h : testWorkerLoop stop_trace fuel = some n) :
    1 ≤ n ∧
    stop_trace (n - 1) = true ∧
    ((List.range (n - 1)).all (fun i => !stop_trace i)) = true ∧
    testWorkerIterExits true WakeReason.timeout = true ∧
    testWorkerIterExits true WakeReason.notified = true ∧
    testWorkerIterExits true WakeReason.spurious = true ∧
    testWorkerIterExits false WakeReason.timeout = false ∧
    testWorkerIterExits false WakeReason.notified = false ∧
    testWorkerIterExits false WakeReason.spurious = false := by
  obtain ⟨h1, h2, h3⟩ := testWorkerLoop_spec fuel stop_trace n h
  refine ⟨h1, h2, ?_, rfl, rfl, rfl, rfl, rfl, rfl⟩
  rw [List.all_eq_true]
  intro i hi
  rw [List.mem_range] at hi
  simp [h3 i hi]

/-- C7, witness: a trace whose stop token trips before the third check. -/
theorem testWorker_exits_only_on_stop_witness :
    1 ≤ 3 ∧
    (fun i => decide (2 ≤ i)) (3 - 1) = true ∧
    ((List.range (3 - 1)).all (fun i => !(fun i => decide (2 ≤ i)) i)) = true ∧
    testWorkerIterExits true WakeReason.timeout = true ∧
    testWorkerIterExits true WakeReason.notified = true ∧
    testWorkerIterExits true WakeReason.spurious = true ∧
    testWorkerIterExits false WakeReason.timeout = false ∧
    testWorkerIterExits false WakeReason.notified = false ∧
    testWorkerIterExits false WakeReason.spurious = false :=
  testWorker_exits_only_on_stop (fun i => decide (2 ≤ i)) 5 3 (by decide)

lemma runEscalation_apply (fs : FileSystem) :
    runEscalation fs = fun q => if q = sentinelPath then some sentinelContent else fs q := by
  funext q
  by_cases hq : q = sentinelPath
  · subst hq
    simp [runEscalation, stop_watching_task, applySubAct, sentinelContent]
  · simp [runEscalation, stop_watching_task, applySubAct, hq]

lemma runEscalation_idem (fs : FileSystem) :
    runEscalation (runEscalation fs) = runEscalation fs := by
  rw [runEscalation_apply fs, runEscalation_apply]
  funext q
  by_cases hq : q = sentinelPath <;> simp [hq]

/-- C10: the sentinel write opens the file with truncation, exactly once per
escalation run; running the escalation any positive number of times has the
same filesystem effect as running it once, which leaves exactly one extra
file — the sentinel at its fixed path with its fixed contents — and every
other path untouched. -/
theorem escalation_idempotent (fs : FileSystem) (n : Nat) (h : 1 ≤ n) :
    runEscalation^[n] fs = runEscalation fs ∧
    runEscalation fs =
      (fun q => if q = sentinelPath then some sentinelContent else fs q) ∧
    stop_watching_task.count (SubAct.openTrunc sentinelPath) = 1 := by
  refine ⟨?_, runEscalation_apply fs, by decide⟩
  induction n with
  | zero => omega
  | succ m ih =>
    by_cases hm : 1 ≤ m
    · rw [Function.iterate_succ_apply', ih hm, runEscalation_idem]
    · have hm0 : m = 0 := by omega
      subst hm0
      rw [Function.iterate_one]

/-- C10, witness: two escalation runs on the empty filesystem. -/
theorem escalation_idempotent_witness :
    runEscalation^[2] (fun _ => none) = runEscalation (fun _ => none) ∧
    runEscalation (fun _ => none) =
      (fun q => if q = sentinelPath then some sentinelContent else (fun _ => none : FileSystem) q) ∧
    stop_watching_task.count (SubAct.openTrunc sentinelPath) = 1 :=
  escalation_idempotent (fun _ => none) 2 (by decide)

end TestBbx15
